import Mathlib

/-!
# Workflow-orchestrator decision engine: a shallow embedding

This file embeds the decision-engine core of the workflow-orchestrator tool
server (`server.py`): the preset validator `validate_preset`, the step planner
`plan_steps`, the artist assigner `assign_artist`, and the decision recorder
`record_decision`, together with the in-memory data tables they read.

Python dictionaries loaded from JSON are modelled as association lists with
unique keys (`List (String × Value)`); `dict.get` returns `Value.vNull` for an
absent key, exactly as Python's `None`.  The wall clock and the decision file
are passed explicitly: `record_decision` takes the two timestamp strings the
source obtains from `datetime.now()` and the parsed contents of the decision
file (with `none` standing for an absent or unparsable file), and returns the
rewritten file contents alongside its result.
-/

namespace Orchestrator

/-- A JSON scalar as Python sees it after `json.load`: null, a string, a
boolean or an integer.  (The rule/request attributes compared by the engine
are scalars; `steps` lists and rule payloads are modelled structurally.) -/
inductive Value where
  | vNull : Value
  | vStr : String → Value
  | vBool : Bool → Value
  | vInt : Int → Value
  deriving DecidableEq, Repr

/-- Python `==` on loaded JSON scalars.  Python's `bool` is a subtype of
`int`, so `True == 1` and `False == 0`; values of different (other) types
compare unequal, and `None` equals only `None`. -/
def Value.pyEq : Value → Value → Bool
  | .vNull, .vNull => true
  | .vStr a, .vStr b => a == b
  | .vBool a, .vBool b => a == b
  | .vInt a, .vInt b => a == b
  | .vBool a, .vInt b => (if a then (1 : Int) else 0) == b
  | .vInt a, .vBool b => a == (if b then (1 : Int) else 0)
  | _, _ => false

/-- Python truthiness of a loaded JSON scalar: `None`, `""`, `False` and `0`
are falsy, everything else is truthy. -/
def Value.isFalsy : Value → Bool
  | .vNull => true
  | .vStr s => s == ""
  | .vBool b => !b
  | .vInt n => n == 0

/-- Python `str(v)` as used inside f-strings, for the scalar values above. -/
def Value.pyFormat : Value → String
  | .vNull => "None"
  | .vStr s => s
  | .vBool b => if b then "True" else "False"
  | .vInt n => toString n

/-- A JSON object (Python dict with unique keys, in insertion order). -/
abbrev Obj := List (String × Value)

/-- Python `d.get(k)`: the stored value, or `None` when the key is absent. -/
def pyGet (d : Obj) (k : String) : Value :=
  match d.lookup k with
  | some v => v
  | none => Value.vNull

/-- Python `k in d`. -/
def pyHasKey (d : Obj) (k : String) : Bool :=
  (d.lookup k).isSome

/-- A workflow request is the JSON object loaded from `request.json`
(its `"id"` field is the key used by `requests_by_id`). -/
abbrev Request := Obj

/-- The `requests_by_id` dictionary comprehension
`{req["id"]: req for req in requests_data}` keys each request on its `"id"`
field, later entries overwriting earlier ones on duplicate ids;
`requests_by_id[request_id]` with a string key thus finds the last request
whose `"id"` field Python-equals that string. -/
def requestsById (requests : List Request) (request_id : String) : Option Request :=
  (requests.filter (fun r => (pyGet r "id").pyEq (Value.vStr request_id))).getLast?

/-- An artist record from `artists.json`. -/
structure Artist where
  id : String
  name : String
  skills : List String
  active_load : Int
  capacity_concurrent : Int
  deriving DecidableEq, Repr

/-- An account preset from `presets.json`: the validator reads only whether
`"naming"` is present and the `"packing"` sub-object (`preset.get("packing",
{})` defaults to the empty mapping). -/
structure Preset where
  naming : Option Value
  packing : Obj
  deriving DecidableEq, Repr

/-- A rule's `"then"` payload: an optional `"steps"` list plus any other
directives (e.g. a `"queue"` tag), kept verbatim. -/
structure RuleActions where
  steps : Option (List Value)
  extra : Obj
  deriving DecidableEq, Repr

/-- A rule from `rules.json`: the `"if"` condition mapping and the `"then"`
action payload. -/
structure Rule where
  cond : Obj
  actions : RuleActions
  deriving DecidableEq, Repr

/-- The four in-memory tables loaded once at startup. -/
structure ServerData where
  requests : List Request
  artists : List Artist
  presets : List (String × Preset)
  rules : List Rule
  deriving DecidableEq, Repr

/-! ## validate_preset -/

/-- The result dict of `validate_preset`. -/
structure ValidateResult where
  ok : Bool
  errors : List String
  deriving DecidableEq, Repr

/-- `sorted(required_channels - actual_channels)` for
`required_channels = {"r", "g", "b", "a"}`: the channels among r, g, b, a
missing from the packing keys, enumerated in alphabetical order
(a, b, g, r), which is exactly what Python's `sorted` yields on that set
difference. -/
def missingChannels (packing : Obj) : List String :=
  ["a", "b", "g", "r"].filter (fun ch => !(packing.map Prod.fst).contains ch)

/-- Looking up `account_id` in the string-keyed `presets_data` dict: only a
string value can hit a key. -/
def presetLookup (presets : List (String × Preset)) (acct : Value) : Option Preset :=
  match acct with
  | .vStr s => presets.lookup s
  | _ => none

/-- The `errors` list accumulated by the naming check and the per-channel
checks (`server.py` lines 103–116): the missing-naming message when
`"naming"` is absent, then one message per missing channel in the sorted
order of `missingChannels`. -/
def accumulatedErrors (preset : Preset) : List String :=
  (if preset.naming.isSome then [] else ["Missing naming pattern configuration"]) ++
  (missingChannels preset.packing).map
    (fun ch => "Missing required texture channel: '" ++ ch ++ "'")

/-- The body of `validate_preset` from the preset-existence check on
(`server.py` lines 94–133), shared by the explicit-account and
resolved-account paths. -/
def validateForAccount (s : ServerData) (acct : Value) : ValidateResult :=
  match presetLookup s.presets acct with
  | none => ⟨false, ["No preset found for account '" ++ acct.pyFormat ++ "'"]⟩
  | some preset =>
    let errors := accumulatedErrors preset
    if errors.isEmpty then ⟨true, []⟩ else ⟨false, errors⟩

/-- `validate_preset(request_id, account_id)` (`server.py` lines 55–133).
Only when `account_id` is falsy (the empty string for the `str`-typed
parameter) is the request table consulted to resolve the account; an
explicit account id goes straight to the preset checks. -/
def validate_preset (s : ServerData) (request_id account_id : String) : ValidateResult :=
  if account_id == "" then
    match requestsById s.requests request_id with
    | some req =>
      let acct := pyGet req "account"
      if acct.isFalsy then
        ⟨false, ["Request '" ++ request_id ++ "' has no account field"]⟩
      else
        validateForAccount s acct
    | none => ⟨false, ["Request '" ++ request_id ++ "' not found"]⟩
  else
    validateForAccount s (Value.vStr account_id)

/-! ## plan_steps -/

/-- One entry of the `matched_rules` trace. -/
structure MatchedRule where
  rule_index : Nat
  conditions : Obj
  actions : RuleActions
  deriving DecidableEq, Repr

/-- The result dict of `plan_steps`. -/
structure PlanResult where
  steps : List Value
  matched_rules : List MatchedRule
  deriving DecidableEq, Repr

/-- `all(request.get(key) == value for key, value in conditions.items())`. -/
def ruleMatches (req : Request) (conds : Obj) : Bool :=
  conds.all (fun kv => (pyGet req kv.1).pyEq kv.2)

/-- The rule loop of `plan_steps` (`enumerate(rules_data)` starting at index
`i`): on a match, the rule's steps (when present) are appended to the step
accumulator and a trace entry to `matched_rules`; no early exit. -/
def planLoop (req : Request) : Nat → List Rule → PlanResult
  | _, [] => ⟨[], []⟩
  | i, rule :: rest =>
    let tail := planLoop req (i + 1) rest
    if ruleMatches req rule.cond then
      ⟨(rule.actions.steps.getD []) ++ tail.steps,
       ⟨i, rule.cond, rule.actions⟩ :: tail.matched_rules⟩
    else tail

/-- `plan_steps(request_id)` (`server.py` lines 136–192): soft failure with
empty steps and empty matched-rules when the request is unknown. -/
def plan_steps (s : ServerData) (request_id : String) : PlanResult :=
  match requestsById s.requests request_id with
  | none => ⟨[], []⟩
  | some req => planLoop req 0 s.rules

/-! ## assign_artist -/

/-- The result dict of `assign_artist`. -/
structure AssignResult where
  artist_id : Option String
  artist_name : Option String
  reason : String
  deriving DecidableEq, Repr

/-- The string content of a skill-bearing attribute.  In the source the
style/engine/topology values are strings (a non-string would raise
`AttributeError` in `.lower()`); a non-string value is mapped to `""`. -/
def Value.asString : Value → String
  | .vStr s => s
  | _ => ""

/-- Python `str.lower()`: per-character lowercasing (the skill and engine
strings at hand are ASCII). -/
def strLower (s : String) : String := ⟨s.data.map Char.toLower⟩

/-- The required-skill list (`server.py` lines 224–232): the request's style
(if present), then its engine lowercased (if present), then its topology (if
present). -/
def requiredSkills (req : Request) : List String :=
  (if pyHasKey req "style" then [(pyGet req "style").asString] else []) ++
  (if pyHasKey req "engine" then [strLower (pyGet req "engine").asString] else []) ++
  (if pyHasKey req "topology" then [(pyGet req "topology").asString] else [])

/-- `required_skills_lower.issubset(artist_skills)` with both sides
lowercased. -/
def skillsMatch (req : Request) (a : Artist) : Bool :=
  (requiredSkills req).all (fun sk => (a.skills.map strLower).contains (strLower sk))

/-- The per-artist filter of the assignment loop: capacity
(`active_load < capacity_concurrent`) and case-insensitive skill
coverage. -/
def artistEligible (req : Request) (a : Artist) : Bool :=
  decide (a.active_load < a.capacity_concurrent) && skillsMatch req a

/-- The dict appended to `eligible_artists` for an artist passing both
checks. -/
structure EligibleArtist where
  id : String
  name : String
  load : Int
  capacity : Int
  deriving DecidableEq, Repr

/-- The projection `{"id": ..., "name": ..., "load": ..., "capacity": ...}`. -/
def Artist.toEligible (a : Artist) : EligibleArtist :=
  ⟨a.id, a.name, a.active_load, a.capacity_concurrent⟩

/-- The `eligible_artists` list built by the loop over `artists_data`
(`server.py` lines 235–254), in pool iteration order. -/
def eligibleArtists (s : ServerData) (req : Request) : List EligibleArtist :=
  s.artists.filterMap (fun a =>
    if artistEligible req a then some a.toEligible else none)

/-- Python's `repr` of a string, as it appears when a list of skill strings
is interpolated into an f-string (the skills at hand contain no quotes). -/
def pyStrRepr (s : String) : String := "'" ++ s ++ "'"

/-- Python's `str` of a list of strings, as interpolated into the reason
f-strings. -/
def pyListRepr (xs : List String) : String :=
  "[" ++ String.intercalate ", " (xs.map pyStrRepr) ++ "]"

/-- `min(eligible_artists, key=lambda a: a["load"])`: Python's `min` scans
left to right and replaces the running best only on a strictly smaller key,
so the first element attaining the minimum wins. -/
def minByLoad (first : EligibleArtist) (rest : List EligibleArtist) : EligibleArtist :=
  rest.foldl (fun best x => if x.load < best.load then x else best) first

/-- `assign_artist(request_id)` (`server.py` lines 195–277). -/
def assign_artist (s : ServerData) (request_id : String) : AssignResult :=
  match requestsById s.requests request_id with
  | none => ⟨none, none, "Request '" ++ request_id ++ "' not found"⟩
  | some req =>
    match eligibleArtists s req with
    | [] =>
      ⟨none, none,
        "No artists available with required skills: " ++ pyListRepr (requiredSkills req)⟩
    | e :: es =>
      let best := minByLoad e es
      ⟨some best.id, some best.name,
        best.name ++ " has required skills " ++ pyListRepr (requiredSkills req) ++
          " and capacity (" ++ toString best.load ++ "/" ++ toString best.capacity ++ ")"⟩

/-! ## record_decision -/

/-- A decision record is a JSON object. -/
abbrev DecisionRecord := Obj

/-- The result dict of `record_decision` (`decision["decision_id"]` and
`decision["recorded_at"]` are read back from the merged record). -/
structure RecordResult where
  decision_id : Value
  recorded_at : Value
  success : Bool
  deriving DecidableEq, Repr

/-- Python dict merge `{**base, **payload}`: the base keys keep their
positions but take the payload's value when the payload also carries the
key; payload-only keys follow in payload order. -/
def pyMergeDict (base payload : Obj) : Obj :=
  (base.map (fun kv =>
    match payload.lookup kv.1 with
    | some v => (kv.1, v)
    | none => kv)) ++
  payload.filter (fun kv => !(base.map Prod.fst).contains kv.1)

/-- `record_decision(request_id, decision_data)` (`server.py` lines
280–334).  `fileContents` is the parsed decision file (`none` when the file
is absent or fails to parse, both treated as the empty array); `ts` is
`datetime.now().strftime("%Y%m%d%H%M%S")` from the first clock read and
`iso` is `datetime.now().isoformat()` from the second.  Returns the
rewritten file contents and the result dict. -/
def record_decision (fileContents : Option (List DecisionRecord)) (ts iso : String)
    (request_id : String) (decision_data : Obj) :
    List DecisionRecord × RecordResult :=
  let decision := pyMergeDict
    [("decision_id", Value.vStr ("dec-" ++ request_id ++ "-" ++ ts)),
     ("request_id", Value.vStr request_id),
     ("recorded_at", Value.vStr iso)]
    decision_data
  let decisions := fileContents.getD []
  let decisions2 := decisions ++ [decision]
  (decisions2, ⟨pyGet decision "decision_id", pyGet decision "recorded_at", true⟩)

/-! ## State-passing wrappers

The three read-only tools never assign to the in-memory tables (the source
only reads them), so their state-transformer forms return the table state
unchanged alongside the result. -/

/-- `validate_preset` as a state transformer over the tables. -/
def validate_presetS (s : ServerData) (request_id account_id : String) :
    ValidateResult × ServerData :=
  (validate_preset s request_id account_id, s)

/-- `plan_steps` as a state transformer over the tables. -/
def plan_stepsS (s : ServerData) (request_id : String) : PlanResult × ServerData :=
  (plan_steps s request_id, s)

/-- `assign_artist` as a state transformer over the tables. -/
def assign_artistS (s : ServerData) (request_id : String) : AssignResult × ServerData :=
  (assign_artist s request_id, s)

/-! ## Helper lemmas -/

/-- `None` Python-equals only `None`. -/
theorem pyEq_vNull_left (v : Value) : Value.pyEq .vNull v = true ↔ v = .vNull := by
  cases v <;> simp [Value.pyEq]

/-- The step accumulator of the rule loop is the concatenation, in rule
order, of the step lists of the matching rules. -/
theorem planLoop_steps (req : Request) (rs : List Rule) : ∀ i : Nat,
    (planLoop req i rs).steps =
      ((rs.filter (fun r => ruleMatches req r.cond)).map
        (fun r => r.actions.steps.getD [])).flatten := by
  induction rs with
  | nil => intro i; rfl
  | cons r rest ih =>
    intro i
    by_cases h : ruleMatches req r.cond <;>
      simp [planLoop, h, ih (i + 1), List.filter_cons]

/-- The rule loop records one trace entry per matching rule. -/
theorem planLoop_count (req : Request) (rs : List Rule) : ∀ i : Nat,
    (planLoop req i rs).matched_rules.length =
      rs.countP (fun r => ruleMatches req r.cond) := by
  induction rs with
  | nil => intro i; simp [planLoop]
  | cons r rest ih =>
    intro i
    by_cases h : ruleMatches req r.cond <;>
      simp [planLoop, h, ih (i + 1), List.countP_cons]

/-- The `eligible_artists` list is the filtered artist pool, projected. -/
theorem eligibleArtists_eq (s : ServerData) (req : Request) :
    eligibleArtists s req =
      (s.artists.filter (artistEligible req)).map Artist.toEligible := by
  unfold eligibleArtists
  induction s.artists with
  | nil => rfl
  | cons a rest ih =>
    by_cases h : artistEligible req a <;>
      simp [List.filterMap_cons, List.filter_cons, h, ih]

/-- The running-minimum fold of the source, at the `Artist` level (proof
device: `minByLoad` acts on the projected records, this is the same fold on
the artists they came from). -/
def artistMinBy (first : Artist) (rest : List Artist) : Artist :=
  rest.foldl (fun best x => if x.active_load < best.active_load then x else best) first

/-- The projection commutes with the running-minimum fold. -/
theorem minByLoad_map (l : List Artist) : ∀ a : Artist,
    minByLoad a.toEligible (l.map Artist.toEligible) = (artistMinBy a l).toEligible := by
  induction l with
  | nil => intro a; rfl
  | cons x xs ih =>
    intro a
    show minByLoad (if x.toEligible.load < a.toEligible.load then x.toEligible else a.toEligible)
          (xs.map Artist.toEligible) =
        (artistMinBy (if x.active_load < a.active_load then x else a) xs).toEligible
    have hcomm : (if x.toEligible.load < a.toEligible.load then x.toEligible else a.toEligible) =
        (if x.active_load < a.active_load then x else a).toEligible := by
      by_cases h : x.active_load < a.active_load <;> simp [Artist.toEligible, h]
    rw [hcomm]
    exact ih _

/-- Python's `min` over a nonempty list returns the first element attaining
the minimum key: the list splits around the result, everything before it has
a strictly larger load, and nothing has a smaller one. -/
theorem artistMinBy_spec (rest : List Artist) : ∀ first : Artist,
    ∃ pre post,
      first :: rest = pre ++ artistMinBy first rest :: post ∧
      (∀ b ∈ pre, (artistMinBy first rest).active_load < b.active_load) ∧
      (∀ b ∈ first :: rest, (artistMinBy first rest).active_load ≤ b.active_load) := by
  induction rest with
  | nil =>
    intro first
    refine ⟨[], [], rfl, by simp, ?_⟩
    intro b hb
    rw [List.mem_singleton] at hb
    subst hb
    exact le_refl _
  | cons x xs ih =>
    intro first
    have hstep : artistMinBy first (x :: xs) =
        artistMinBy (if x.active_load < first.active_load then x else first) xs := rfl
    by_cases hx : x.active_load < first.active_load
    · obtain ⟨pre, post, hdec, hpre, hmin⟩ := ih x
      rw [hstep, if_pos hx]
      have hmx : (artistMinBy x xs).active_load ≤ x.active_load :=
        hmin x (List.mem_cons_self x xs)
      refine ⟨first :: pre, post, ?_, ?_, ?_⟩
      · rw [List.cons_append, ← hdec]
      · intro b hb
        rcases List.mem_cons.mp hb with h | h
        · subst h; exact lt_of_le_of_lt hmx hx
        · exact hpre b h
      · intro b hb
        rcases List.mem_cons.mp hb with h | h
        · subst h; exact le_of_lt (lt_of_le_of_lt hmx hx)
        · exact hmin b h
    · obtain ⟨pre, post, hdec, hpre, hmin⟩ := ih first
      rw [hstep, if_neg hx]
      have hfx : first.active_load ≤ x.active_load := le_of_not_lt hx
      have hmf : (artistMinBy first xs).active_load ≤ first.active_load :=
        hmin first (List.mem_cons_self first xs)
      cases pre with
      | nil =>
        rw [List.nil_append] at hdec
        have hm : artistMinBy first xs = first := (List.cons.inj hdec).1.symm
        have hpost : xs = post := (List.cons.inj hdec).2
        refine ⟨[], x :: post, ?_, by simp, ?_⟩
        · rw [List.nil_append, hm, ← hpost]
        · intro b hb
          rcases List.mem_cons.mp hb with h | h
          · rw [h]; exact hmin first (List.mem_cons_self first xs)
          rcases List.mem_cons.mp h with h2 | h2
          · subst h2; exact le_trans hmf hfx
          · exact hmin b (List.mem_cons_of_mem first h2)
      | cons p pre2 =>
        rw [List.cons_append] at hdec
        have hp : first = p := (List.cons.inj hdec).1
        have hxs : xs = pre2 ++ artistMinBy first xs :: post := (List.cons.inj hdec).2
        have hmfirst : (artistMinBy first xs).active_load < first.active_load := by
          have h0 := hpre p (List.mem_cons_self p pre2)
          rw [← hp] at h0
          exact h0
        refine ⟨first :: x :: pre2, post, ?_, ?_, ?_⟩
        · rw [List.cons_append, List.cons_append, ← hxs]
        · intro b hb
          rcases List.mem_cons.mp hb with h | h
          · subst h; exact hmfirst
          rcases List.mem_cons.mp h with h2 | h2
          · subst h2; exact lt_of_lt_of_le hmfirst hfx
          · exact hpre b (List.mem_cons_of_mem p h2)
        · intro b hb
          rcases List.mem_cons.mp hb with h | h
          · rw [h]; exact hmin first (List.mem_cons_self first xs)
          rcases List.mem_cons.mp h with h2 | h2
          · subst h2; exact le_trans hmf hfx
          · exact hmin b (List.mem_cons_of_mem first h2)

/-! ## Concrete fixture data (for witnesses and counterexamples) -/

/-- A request owning account `acct1`, with style and engine attributes. -/
def reqA : Request :=
  [("id", Value.vStr "rA"), ("account", Value.vStr "acct1"),
   ("style", Value.vStr "Sculpt"), ("engine", Value.vStr "Unreal")]

/-- A second request with the same derived required skills as `reqA`. -/
def reqB : Request :=
  [("id", Value.vStr "rB"), ("account", Value.vStr "acct1"),
   ("style", Value.vStr "Sculpt"), ("engine", Value.vStr "unreal")]

/-- A request requiring a skill no fixture artist has. -/
def reqC : Request :=
  [("id", Value.vStr "rC"), ("style", Value.vStr "voxel")]

/-- Two artists; both cover `sculpt`/`unreal`, Ben with the lower load. -/
def wArtists : List Artist :=
  [⟨"a-1", "Ada", ["Sculpt", "unreal"], 1, 2⟩,
   ⟨"a-2", "Ben", ["sculpt", "unreal", "pbr"], 0, 1⟩]

/-- A preset with a naming field and all four packing channels. -/
def wPreset : Preset :=
  ⟨some (Value.vStr "pat"),
   [("r", Value.vNull), ("g", Value.vNull), ("b", Value.vNull), ("a", Value.vNull)]⟩

/-- Two rules matching `reqA` on style and engine respectively. -/
def wRules : List Rule :=
  [⟨[("style", Value.vStr "Sculpt")], ⟨some [Value.vStr "s1"], []⟩⟩,
   ⟨[("engine", Value.vStr "Unreal")], ⟨some [Value.vStr "s2"], [("queue", Value.vStr "fast")]⟩⟩]

/-- The fixture tables. -/
def wData : ServerData := ⟨[reqA, reqB, reqC], wArtists, [("acct1", wPreset)], wRules⟩

/-- Tables with no requests but a complete preset for account `acct`. -/
def c4s : ServerData := ⟨[], [], [("acct", wPreset)], []⟩

/-- A request carrying nothing but its id. -/
def c3req : Request := [("id", Value.vStr "c3")]

/-- Tables with a single rule whose one condition field carries `null`. -/
def c3s : ServerData :=
  ⟨[c3req], [], [], [⟨[("x", Value.vNull)], ⟨some [Value.vStr "s1"], []⟩⟩]⟩

/-! ## Claims -/

/-- C2: for every request id present in the requests table, `plan_steps`
returns as `steps` the concatenation, in rule-list order and without
deduplication or early exit, of the `steps` lists of every rule whose
condition mapping is fully satisfied by the request, and a `matched_rules`
list with exactly one entry per rule whose conditions all equal-match. -/
theorem C2_plan_steps_concatenation (s : ServerData) (request_id : String) (req : Request)
    (hreq : requestsById s.requests request_id = some req) :
    (plan_steps s request_id).steps =
      ((s.rules.filter (fun r => ruleMatches req r.cond)).map
        (fun r => r.actions.steps.getD [])).flatten ∧
    (plan_steps s request_id).matched_rules.length =
      s.rules.countP (fun r => ruleMatches req r.cond) := by
  constructor
  · simp [plan_steps, hreq, planLoop_steps]
  · simp [plan_steps, hreq, planLoop_count]

/-- C2 witness: on the fixture, `reqA` matches both rules, so the steps are
`[s1, s2]` and two rules are traced. -/
theorem C2_witness :
    (plan_steps wData "rA").steps =
      ((wData.rules.filter (fun r => ruleMatches reqA r.cond)).map
        (fun r => r.actions.steps.getD [])).flatten ∧
    (plan_steps wData "rA").matched_rules.length =
      wData.rules.countP (fun r => ruleMatches reqA r.cond) :=
  C2_plan_steps_concatenation wData "rA" reqA (by decide)

/-- C3 counterexample: a rule whose single condition field `"x"` carries the
JSON value `null` matches a request from which `"x"` is absent — Python
evaluates `request.get("x") == None` to `True` — so the rule matches in
`plan_steps` although a condition field is absent from the request,
contradicting the claim as stated. -/
theorem C3_counterexample :
    List.lookup "x" c3req = none ∧
    ruleMatches c3req [("x", Value.vNull)] = true ∧
    (plan_steps c3s "c3").matched_rules.length = 1 := by
  refine ⟨rfl, rfl, by decide⟩

/-- C3 (amended): rule matching tests, conjunctively, that each condition
field's value — reading an absent field as `null` — Python-equals the
condition's value.  Provided no condition value is `null`, this is
equivalent to every condition field being present on the request with a
Python-equal value; in particular a rule with a non-null condition on a
field absent from the request does not match. -/
theorem C3_rule_matching (req : Request) (conds : Obj)
    (hnn : ∀ kv ∈ conds, kv.2 ≠ Value.vNull) :
    (ruleMatches req conds = true ↔
      ∀ kv ∈ conds, ∃ w, req.lookup kv.1 = some w ∧ w.pyEq kv.2 = true) ∧
    (∀ kv ∈ conds, req.lookup kv.1 = none → ruleMatches req conds = false) := by
  have hiff : ruleMatches req conds = true ↔
      ∀ kv ∈ conds, ∃ w, req.lookup kv.1 = some w ∧ w.pyEq kv.2 = true := by
    rw [ruleMatches, List.all_eq_true]
    constructor
    · intro h kv hkv
      have hp := h kv hkv
      cases hk : req.lookup kv.1 with
      | some w => exact ⟨w, rfl, by simpa [pyGet, hk] using hp⟩
      | none =>
        simp only [pyGet, hk] at hp
        exact absurd ((pyEq_vNull_left kv.2).mp hp) (hnn kv hkv)
    · intro h kv hkv
      obtain ⟨w, hk, hw⟩ := h kv hkv
      simpa [pyGet, hk] using hw
  refine ⟨hiff, ?_⟩
  intro kv hkv hnone
  cases hrm : ruleMatches req conds with
  | false => rfl
  | true =>
    obtain ⟨w, hk, _⟩ := hiff.mp hrm kv hkv
    rw [hnone] at hk
    exact Option.noConfusion hk

/-- C3 witness: the style rule's condition value is non-null; on `reqA`
matching is equivalent to presence with an equal value. -/
theorem C3_witness :
    (∀ kv ∈ ([("style", Value.vStr "Sculpt")] : Obj), kv.2 ≠ Value.vNull) ∧
    ((ruleMatches reqA [("style", Value.vStr "Sculpt")] = true ↔
      ∀ kv ∈ ([("style", Value.vStr "Sculpt")] : Obj),
        ∃ w, reqA.lookup kv.1 = some w ∧ w.pyEq kv.2 = true) ∧
     (∀ kv ∈ ([("style", Value.vStr "Sculpt")] : Obj),
        reqA.lookup kv.1 = none →
        ruleMatches reqA [("style", Value.vStr "Sculpt")] = false)) :=
  ⟨by decide, C3_rule_matching reqA [("style", Value.vStr "Sculpt")] (by decide)⟩

/-- C4 counterexample: with an explicit account identifier, the request
table is never consulted, so an unknown request id can come back
`ok = true` with no errors at all — the claim's "regardless of whether an
explicit account identifier is also supplied" fails. -/
theorem C4_counterexample :
    requestsById c4s.requests "ghost" = none ∧
    validate_preset c4s "ghost" "acct" = ⟨true, []⟩ :=
  ⟨rfl, by decide⟩

/-- C4 (amended): for every request id absent from the requests table,
`validate_preset` *called without an explicit account identifier* returns
`ok = false` with exactly the "not found" error (and, being a total
function, never raises); with an explicit account identifier the request
table is not consulted. -/
theorem C4_unknown_request (s : ServerData) (request_id : String)
    (h : requestsById s.requests request_id = none) :
    validate_preset s request_id "" =
      ⟨false, ["Request '" ++ request_id ++ "' not found"]⟩ := by
  simp [validate_preset, h]

/-- C4 witness: the unknown id `ghost` against the `c4s` tables. -/
theorem C4_witness :
    requestsById c4s.requests "ghost" = none ∧
    validate_preset c4s "ghost" "" =
      ⟨false, ["Request '" ++ "ghost" ++ "' not found"]⟩ :=
  ⟨by decide, C4_unknown_request c4s "ghost" (by decide)⟩

/-- C8: for every request id absent from the requests table, `plan_steps`
returns empty steps and an empty matched-rules list with no error surfaced,
and `assign_artist` returns a null artist with a "not found" reason;
both are total functions, so neither raises. -/
theorem C8_unknown_request_soft (s : ServerData) (request_id : String)
    (h : requestsById s.requests request_id = none) :
    plan_steps s request_id = ⟨[], []⟩ ∧
    assign_artist s request_id =
      ⟨none, none, "Request '" ++ request_id ++ "' not found"⟩ := by
  constructor
  · simp [plan_steps, h]
  · simp [assign_artist, h]

/-- C8 witness: the unknown id `ghost` against the fixture tables. -/
theorem C8_witness :
    plan_steps wData "ghost" = ⟨[], []⟩ ∧
    assign_artist wData "ghost" =
      ⟨none, none, "Request '" ++ "ghost" ++ "' not found"⟩ :=
  C8_unknown_request_soft wData "ghost" (by decide)

/-- C5: for every account whose preset exists (explicit non-empty account
identifier), `validate_preset` returns the error list consisting of the
missing-naming error exactly when the preset lacks a naming field, followed
by one error per channel of r, g, b, a missing from the packing mapping,
listed in alphabetical order; `ok = true` holds exactly when that list is
empty, and a preset with a naming field whose packing covers all of
r, g, b, a yields `ok = true` with no errors. -/
theorem C5_validate_preset_account (s : ServerData) (request_id account_id : String)
    (p : Preset) (hne : account_id ≠ "") (hp : s.presets.lookup account_id = some p) :
    (validate_preset s request_id account_id).errors =
      (if p.naming.isSome then [] else ["Missing naming pattern configuration"]) ++
      (["a", "b", "g", "r"].filter
        (fun ch => !(p.packing.map Prod.fst).contains ch)).map
        (fun ch => "Missing required texture channel: '" ++ ch ++ "'") ∧
    ((validate_preset s request_id account_id).ok = true ↔
      (validate_preset s request_id account_id).errors = []) ∧
    ((p.naming.isSome = true ∧
        ∀ ch ∈ ["r", "g", "b", "a"], (p.packing.map Prod.fst).contains ch = true) →
      validate_preset s request_id account_id = ⟨true, []⟩) := by
  have h0 : (account_id == "") = false := by simp [hne]
  have hsp : (if p.naming.isSome then [] else ["Missing naming pattern configuration"]) ++
      (["a", "b", "g", "r"].filter
        (fun ch => !(p.packing.map Prod.fst).contains ch)).map
        (fun ch => "Missing required texture channel: '" ++ ch ++ "'") =
      accumulatedErrors p := rfl
  have hred : validate_preset s request_id account_id =
      (if (accumulatedErrors p).isEmpty then ⟨true, []⟩ else ⟨false, accumulatedErrors p⟩) := by
    simp [validate_preset, h0, validateForAccount, presetLookup, hp]
  by_cases hE : accumulatedErrors p = []
  · rw [hred, if_pos (by simp [hE])]
    refine ⟨?_, by simp, fun _ => rfl⟩
    rw [hsp, hE]
  · rw [hred, if_neg (by simp [hE])]
    refine ⟨hsp.symm, by simp [hE], ?_⟩
    rintro ⟨hn, hch⟩
    exfalso
    apply hE
    have ha := hch "a" (by simp)
    have hb := hch "b" (by simp)
    have hg := hch "g" (by simp)
    have hr := hch "r" (by simp)
    simp only [accumulatedErrors, missingChannels, hn, if_true]
    simp only [List.filter_cons, ha, hb, hg, hr, Bool.not_true, List.filter_nil]
    simp

/-- C5 witness: the fixture preset for `acct1` has a naming field and all
four channels, so validation passes with an empty error list. -/
theorem C5_witness :
    (validate_preset wData "rA" "acct1").errors =
      (if wPreset.naming.isSome then [] else ["Missing naming pattern configuration"]) ++
      (["a", "b", "g", "r"].filter
        (fun ch => !(wPreset.packing.map Prod.fst).contains ch)).map
        (fun ch => "Missing required texture channel: '" ++ ch ++ "'") ∧
    ((validate_preset wData "rA" "acct1").ok = true ↔
      (validate_preset wData "rA" "acct1").errors = []) ∧
    ((wPreset.naming.isSome = true ∧
        ∀ ch ∈ ["r", "g", "b", "a"], (wPreset.packing.map Prod.fst).contains ch = true) →
      validate_preset wData "rA" "acct1" = ⟨true, []⟩) :=
  C5_validate_preset_account wData "rA" "acct1" wPreset (by decide) (by decide)

/-- C6 counterexample: a caller-supplied payload carrying a `decision_id`
key replaces the generated id, so the returned `decision_id` is the
payload's value `boom`, not of the generated `dec-<request_id>-<timestamp>`
form — the claim as universally stated over all payloads fails. -/
theorem C6_counterexample :
    (record_decision (some []) "20250101120000" "2025-01-01T12:00:00" "r1"
      [("decision_id", Value.vStr "boom")]).2.success = true ∧
    (record_decision (some []) "20250101120000" "2025-01-01T12:00:00" "r1"
      [("decision_id", Value.vStr "boom")]).2.decision_id = Value.vStr "boom" ∧
    "boom" ≠ "dec-" ++ "r1" ++ "-" ++ "20250101120000" :=
  ⟨rfl, by decide, by decide⟩

/-- C6 (amended): for every request id and every caller-supplied payload
*that does not itself carry a `decision_id` key*, `record_decision` returns
`success = true` and a decision id of the form
`dec-<request_id>-<timestamp-to-the-second>` — so two calls with the same
request id share the prefix up to the timestamp segment — and every call
appends exactly one record to the (well-formed) backing store. -/
theorem C6_record_decision (fc : Option (List DecisionRecord)) (ts iso request_id : String)
    (dd : Obj) (hdd : dd.lookup "decision_id" = none) :
    (record_decision fc ts iso request_id dd).2.success = true ∧
    (record_decision fc ts iso request_id dd).2.decision_id =
      Value.vStr ("dec-" ++ request_id ++ "-" ++ ts) ∧
    (record_decision fc ts iso request_id dd).1.length = (fc.getD []).length + 1 := by
  refine ⟨rfl, ?_, ?_⟩
  · simp [record_decision, pyMergeDict, pyGet, hdd]
  · simp [record_decision]

/-- C6 witness: a payload without a `decision_id` key gets the generated id
and grows the store from zero to one record. -/
theorem C6_witness :
    (record_decision (some []) "20250101120000" "2025-01-01T12:00:00" "r1"
      [("steps", Value.vStr "s")]).2.success = true ∧
    (record_decision (some []) "20250101120000" "2025-01-01T12:00:00" "r1"
      [("steps", Value.vStr "s")]).2.decision_id =
      Value.vStr ("dec-" ++ "r1" ++ "-" ++ "20250101120000") ∧
    (record_decision (some []) "20250101120000" "2025-01-01T12:00:00" "r1"
      [("steps", Value.vStr "s")]).1.length =
      ((some ([] : List DecisionRecord)).getD []).length + 1 :=
  C6_record_decision (some []) "20250101120000" "2025-01-01T12:00:00" "r1"
    [("steps", Value.vStr "s")] (by decide)

/-- C7: for every request id present in the requests table whose eligible
set is empty, `assign_artist` returns null artist id and name together with
the non-empty reason string naming the required skill set (and, being a
total function, does not raise). -/
theorem C7_assign_artist_no_eligible (s : ServerData) (request_id : String) (req : Request)
    (hreq : requestsById s.requests request_id = some req)
    (helig : s.artists.filter (artistEligible req) = []) :
    assign_artist s request_id =
      ⟨none, none,
        "No artists available with required skills: " ++ pyListRepr (requiredSkills req)⟩ ∧
    (assign_artist s request_id).reason ≠ "" := by
  have he : eligibleArtists s req = [] := by rw [eligibleArtists_eq, helig]; rfl
  have h1 : assign_artist s request_id =
      ⟨none, none,
        "No artists available with required skills: " ++ pyListRepr (requiredSkills req)⟩ := by
    simp [assign_artist, hreq, he]
  refine ⟨h1, ?_⟩
  rw [h1]
  intro hcon
  have hd := congrArg String.data hcon
  rw [String.data_append] at hd
  exact absurd (List.append_eq_nil.mp hd).1 (by decide)

/-- C7 witness: `reqC` requires the skill `voxel`, which no fixture artist
has, so the eligible set is empty. -/
theorem C7_witness :
    assign_artist wData "rC" =
      ⟨none, none,
        "No artists available with required skills: " ++ pyListRepr (requiredSkills reqC)⟩ ∧
    (assign_artist wData "rC").reason ≠ "" :=
  C7_assign_artist_no_eligible wData "rC" reqC (by decide) (by decide)

/-- C10: a caller-supplied payload key among `decision_id`, `request_id`,
`recorded_at` replaces the generated value for that field in the record
appended to the decision store, and (for the fields echoed back) in the
returned result, so the returned decision id need not have the generated
form. -/
theorem C10_payload_overrides (fc : Option (List DecisionRecord)) (ts iso request_id : String)
    (dd : Obj) :
    (∀ v, dd.lookup "decision_id" = some v →
      (record_decision fc ts iso request_id dd).2.decision_id = v ∧
      ((record_decision fc ts iso request_id dd).1.getLast?).map
        (fun d => pyGet d "decision_id") = some v) ∧
    (∀ v, dd.lookup "request_id" = some v →
      ((record_decision fc ts iso request_id dd).1.getLast?).map
        (fun d => pyGet d "request_id") = some v) ∧
    (∀ v, dd.lookup "recorded_at" = some v →
      (record_decision fc ts iso request_id dd).2.recorded_at = v ∧
      ((record_decision fc ts iso request_id dd).1.getLast?).map
        (fun d => pyGet d "recorded_at") = some v) := by
  have hb1 : (("request_id" : String) == "decision_id") = false := by decide
  have hb2 : (("recorded_at" : String) == "decision_id") = false := by decide
  have hb3 : (("recorded_at" : String) == "request_id") = false := by decide
  refine ⟨?_, ?_, ?_⟩
  · intro v hv
    constructor
    · simp [record_decision, pyMergeDict, pyGet, hv]
    · simp [record_decision, List.getLast?_concat, pyMergeDict, pyGet, hv]
  · intro v hv
    cases h1 : dd.lookup "decision_id" <;> cases h3 : dd.lookup "recorded_at" <;>
      simp [record_decision, List.getLast?_concat, pyMergeDict, pyGet, List.lookup,
        hv, h1, h3, hb1]
  · intro v hv
    cases h1 : dd.lookup "decision_id" <;> cases h2 : dd.lookup "request_id" <;>
      constructor <;>
        simp [record_decision, List.getLast?_concat, pyMergeDict, pyGet, List.lookup,
          hv, h1, h2, hb2, hb3]

/-- C10 witness: a payload overriding all three generated fields shows up
verbatim in the stored record and in the returned result. -/
theorem C10_witness :
    (record_decision (some []) "TS" "ISO" "r1"
      [("decision_id", Value.vStr "d1"), ("request_id", Value.vStr "r9"),
       ("recorded_at", Value.vStr "t9")]).2.decision_id = Value.vStr "d1" ∧
    ((record_decision (some []) "TS" "ISO" "r1"
      [("decision_id", Value.vStr "d1"), ("request_id", Value.vStr "r9"),
       ("recorded_at", Value.vStr "t9")]).1.getLast?).map
      (fun d => pyGet d "request_id") = some (Value.vStr "r9") ∧
    (record_decision (some []) "TS" "ISO" "r1"
      [("decision_id", Value.vStr "d1"), ("request_id", Value.vStr "r9"),
       ("recorded_at", Value.vStr "t9")]).2.recorded_at = Value.vStr "t9" :=
  ⟨((C10_payload_overrides (some []) "TS" "ISO" "r1"
      [("decision_id", Value.vStr "d1"), ("request_id", Value.vStr "r9"),
       ("recorded_at", Value.vStr "t9")]).1 (Value.vStr "d1") (by decide)).1,
   (C10_payload_overrides (some []) "TS" "ISO" "r1"
      [("decision_id", Value.vStr "d1"), ("request_id", Value.vStr "r9"),
       ("recorded_at", Value.vStr "t9")]).2.1 (Value.vStr "r9") (by decide),
   ((C10_payload_overrides (some []) "TS" "ISO" "r1"
      [("decision_id", Value.vStr "d1"), ("request_id", Value.vStr "r9"),
       ("recorded_at", Value.vStr "t9")]).2.2 (Value.vStr "t9") (by decide)).1⟩

/-- C1: for every request id present in the requests table, the
required-skill list is exactly, in order, the request's style (if present),
its engine lowercased (if present), its topology (if present); and when at
least one artist is eligible (load strictly below capacity and lowercased
skills covering the lowercased required skills), the returned artist is an
eligible artist of minimum active load, and the first artist in pool
iteration order among those attaining the minimum. -/
theorem C1_assign_artist_min_load (s : ServerData) (request_id : String) (req : Request)
    (hreq : requestsById s.requests request_id = some req)
    (hne : s.artists.filter (artistEligible req) ≠ []) :
    (requiredSkills req =
      (match req.lookup "style" with
       | some v => [v.asString]
       | none => []) ++
      (match req.lookup "engine" with
       | some v => [strLower v.asString]
       | none => []) ++
      (match req.lookup "topology" with
       | some v => [v.asString]
       | none => [])) ∧
    ∃ a pre post,
      s.artists.filter (artistEligible req) = pre ++ a :: post ∧
      (assign_artist s request_id).artist_id = some a.id ∧
      (assign_artist s request_id).artist_name = some a.name ∧
      a.active_load < a.capacity_concurrent ∧
      (∀ sk ∈ requiredSkills req, strLower sk ∈ a.skills.map strLower) ∧
      (∀ b ∈ s.artists.filter (artistEligible req), a.active_load ≤ b.active_load) ∧
      (∀ b ∈ pre, a.active_load < b.active_load) := by
  constructor
  · cases h1 : req.lookup "style" <;> cases h2 : req.lookup "engine" <;>
      cases h3 : req.lookup "topology" <;>
      simp [requiredSkills, pyHasKey, pyGet, h1, h2, h3]
  · obtain ⟨a0, arest, h⟩ : ∃ a0 arest,
        s.artists.filter (artistEligible req) = a0 :: arest := by
      cases hf : s.artists.filter (artistEligible req) with
      | nil => exact absurd hf hne
      | cons a0 arest => exact ⟨a0, arest, rfl⟩
    have he : eligibleArtists s req = a0.toEligible :: (arest.map Artist.toEligible) := by
      rw [eligibleArtists_eq, h, List.map_cons]
    have hbest : minByLoad (⟨a0.id, a0.name, a0.active_load, a0.capacity_concurrent⟩ :
          EligibleArtist) (arest.map Artist.toEligible) =
        (artistMinBy a0 arest).toEligible :=
      minByLoad_map arest a0
    have hid : (assign_artist s request_id).artist_id = some (artistMinBy a0 arest).id := by
      simp [assign_artist, hreq, he, hbest, Artist.toEligible]
    have hname : (assign_artist s request_id).artist_name =
        some (artistMinBy a0 arest).name := by
      simp [assign_artist, hreq, he, hbest, Artist.toEligible]
    obtain ⟨pre, post, hdec, hpre, hmin⟩ := artistMinBy_spec arest a0
    have hmemfilter : artistMinBy a0 arest ∈ s.artists.filter (artistEligible req) := by
      rw [h, hdec]
      exact List.mem_append.mpr (Or.inr (List.mem_cons_self _ _))
    have helig : artistEligible req (artistMinBy a0 arest) = true :=
      (List.mem_filter.mp hmemfilter).2
    rw [artistEligible, Bool.and_eq_true, decide_eq_true_eq] at helig
    refine ⟨artistMinBy a0 arest, pre, post, ?_, hid, hname, helig.1, ?_, ?_, hpre⟩
    · rw [h]; exact hdec
    · intro sk hskmem
      have hall := List.all_eq_true.mp (by rw [skillsMatch] at helig; exact helig.2) sk hskmem
      simpa using hall
    · intro b hb
      rw [h] at hb
      exact hmin b hb

/-- C1 witness: on the fixture, both artists are eligible for `reqA` and
Ben, with the lower load, is returned. -/
theorem C1_witness :
    (requiredSkills reqA =
      (match reqA.lookup "style" with
       | some v => [v.asString]
       | none => []) ++
      (match reqA.lookup "engine" with
       | some v => [strLower v.asString]
       | none => []) ++
      (match reqA.lookup "topology" with
       | some v => [v.asString]
       | none => [])) ∧
    ∃ a pre post,
      wData.artists.filter (artistEligible reqA) = pre ++ a :: post ∧
      (assign_artist wData "rA").artist_id = some a.id ∧
      (assign_artist wData "rA").artist_name = some a.name ∧
      a.active_load < a.capacity_concurrent ∧
      (∀ sk ∈ requiredSkills reqA, strLower sk ∈ a.skills.map strLower) ∧
      (∀ b ∈ wData.artists.filter (artistEligible reqA), a.active_load ≤ b.active_load) ∧
      (∀ b ∈ pre, a.active_load < b.active_load) :=
  C1_assign_artist_min_load wData "rA" reqA (by decide) (by decide)

/-- C9: the three read-only tools leave the in-memory tables unchanged for
every input, and `assign_artist` performs no load mutation: the result is a
pure function of the tables and the derived required skills, so two resolved
requests with the same required-skill list receive the very same assignment
(the same least-loaded artist can be handed out repeatedly). -/
theorem C9_tools_read_only (s : ServerData) :
    (∀ request_id account_id, (validate_presetS s request_id account_id).2 = s) ∧
    (∀ request_id, (plan_stepsS s request_id).2 = s) ∧
    (∀ request_id, (assign_artistS s request_id).2 = s) ∧
    (∀ rid1 rid2 req1 req2,
      requestsById s.requests rid1 = some req1 →
      requestsById s.requests rid2 = some req2 →
      requiredSkills req1 = requiredSkills req2 →
      assign_artist s rid1 = assign_artist s rid2) := by
  refine ⟨fun _ _ => rfl, fun _ => rfl, fun _ => rfl, ?_⟩
  intro rid1 rid2 req1 req2 h1 h2 hsk
  have hel : artistEligible req1 = artistEligible req2 := by
    funext a
    simp [artistEligible, skillsMatch, hsk]
  have heq : eligibleArtists s req1 = eligibleArtists s req2 := by
    unfold eligibleArtists
    rw [hel]
  simp only [assign_artist, h1, h2]
  rw [heq, hsk]

/-- C9 witness: the tables come back unchanged, and the two fixture
requests with identical derived skills get the identical assignment. -/
theorem C9_witness :
    (validate_presetS wData "rA" "acct1").2 = wData ∧
    (plan_stepsS wData "rA").2 = wData ∧
    (assign_artistS wData "rA").2 = wData ∧
    assign_artist wData "rA" = assign_artist wData "rB" :=
  ⟨(C9_tools_read_only wData).1 "rA" "acct1",
   (C9_tools_read_only wData).2.1 "rA",
   (C9_tools_read_only wData).2.2.1 "rA",
   (C9_tools_read_only wData).2.2.2 "rA" "rB" reqA reqB (by decide) (by decide) (by decide)⟩

end Orchestrator
